import Mathlib

/- Verification of the sandbox policy engine in src/sandbox/src/lib.rs.
   The Rust code compiles a SandboxConfig into a Landlock kernel ruleset,
   applies it to the current process with restrict_self, and interprets
   the tri-state enforcement status.  The kernel itself is a black box:
   its responses (success or failure of handle_access, create, restrict_self;
   the resulting enforcement status; path existence and openability) are
   abstracted as a KernelState oracle, and the embedding is a pure function
   of that oracle, faithful to the control flow of the source. -/

namespace Sandbox

/-- Filesystem access rights of the Landlock ABI (landlock AccessFs; all
rights available up to ABI V5, the version the source passes to from_all). -/
inductive AccessFs where
  | Execute
  | WriteFile
  | ReadFile
  | ReadDir
  | RemoveDir
  | RemoveFile
  | MakeChar
  | MakeDir
  | MakeReg
  | MakeSock
  | MakeFifo
  | MakeBlock
  | MakeSym
  | Refer
  | Truncate
  | IoctlDev
deriving DecidableEq, Fintype

/-- Network access rights of the Landlock ABI (landlock AccessNet). -/
inductive AccessNet where
  | BindTcp
  | ConnectTcp
deriving DecidableEq, Fintype

/-- Landlock ABI versions (the landlock crate enum ABI; Unsupported is the
catch-all arm the source maps to 0). -/
inductive ABI where
  | Unsupported
  | V1
  | V2
  | V3
  | V4
  | V5
deriving DecidableEq

/-- Tri-state enforcement outcome of committing a ruleset
(landlock RulesetStatus). -/
inductive RulesetStatus where
  | FullyEnforced
  | PartiallyEnforced
  | NotEnforced
deriving DecidableEq

/-- Filesystem permission configuration (struct FsConfig, lib.rs lines 12-19). -/
structure FsConfig where
  read : Option (List String)
  write : Option (List String)
  execute : Option (List String)
deriving DecidableEq

/-- Network permission configuration (struct NetConfig, lib.rs lines 23-26).
Ports are u16 values, written as Nat here; they are never read by the code. -/
structure NetConfig where
  connect_ports : Option (List Nat)
deriving DecidableEq

/-- Sandbox configuration (struct SandboxConfig, lib.rs lines 30-35). -/
structure SandboxConfig where
  fs : Option FsConfig
  net : Option NetConfig
deriving DecidableEq

/-- Result of checking Landlock support (struct LandlockSupport,
lib.rs lines 39-48). -/
structure LandlockSupport where
  supported : Bool
  abi_version : Nat
  network_supported : Bool
  message : String
deriving DecidableEq

/-- Oracle for the behaviour of the running kernel and host filesystem.
Each field records the outcome of one kernel interaction of the source:
handleFsOk is the result of Ruleset::default().handle_access(AccessFs)
(lib.rs lines 56 and 98), handleNetOk the result of
handle_access(AccessNet) (line 103), handleFs2Ok the result of the second
handle_access(AccessFs) inside the network branch (line 104), createOk the
result of create() (line 109), restrictOk whether restrict_self() itself
succeeds (line 159), rulesetStatus the status it reports (line 162).
bestAbi is the highest Landlock ABI the kernel actually supports; the
source never consults it.  pathExists models PathBuf::exists (line 189)
and pathOpenable models PathFd::new plus add_rule succeeding
(lines 193-194). -/
structure KernelState where
  handleFsOk : Bool
  handleFsErr : String
  handleNetOk : Bool
  handleFs2Ok : Bool
  handleFs2Err : String
  createOk : Bool
  createErr : String
  restrictOk : Bool
  restrictErr : String
  rulesetStatus : RulesetStatus
  bestAbi : Nat
  pathExists : String → Bool
  pathOpenable : String → Bool

/-- One PathBeneath rule: a path together with the access rights granted
beneath it (PathBeneath::new(path_fd, access), lib.rs line 194). -/
structure FsRule where
  path : String
  access : Finset AccessFs
deriving DecidableEq

/-- One NetPort rule: a port together with the network rights granted on it.
The source never constructs such a rule. -/
structure NetPortRule where
  port : Nat
  access : Finset AccessNet
deriving DecidableEq

/-- A created kernel ruleset: the handled (declared) access-right families
and the rules added to it. -/
structure Ruleset where
  handled_fs : Finset AccessFs
  handled_net : Finset AccessNet
  fs_rules : List FsRule
  net_rules : List NetPortRule
deriving DecidableEq

/-- Process enforcement state: the stack of rulesets committed to the
process by restrict_self.  A fresh process has the empty stack. -/
abbrev ProcState := List Ruleset

/-- AccessFs::from_all(ABI::V5): every filesystem right up to V5. -/
def fromAllFs : Finset AccessFs :=
  {AccessFs.Execute, AccessFs.WriteFile, AccessFs.ReadFile, AccessFs.ReadDir,
   AccessFs.RemoveDir, AccessFs.RemoveFile, AccessFs.MakeChar, AccessFs.MakeDir,
   AccessFs.MakeReg, AccessFs.MakeSock, AccessFs.MakeFifo, AccessFs.MakeBlock,
   AccessFs.MakeSym, AccessFs.Refer, AccessFs.Truncate, AccessFs.IoctlDev}

/-- AccessNet::from_all(ABI::V5): the bind and connect TCP rights. -/
def fromAllNet : Finset AccessNet := {AccessNet.BindTcp, AccessNet.ConnectTcp}

/-- The version number the source assigns to each ABI value
(the match on abi, lib.rs lines 59-66). -/
def abiVersionOf : ABI → Nat
  | ABI.V1 => 1
  | ABI.V2 => 2
  | ABI.V3 => 3
  | ABI.V4 => 4
  | ABI.V5 => 5
  | ABI.Unsupported => 0

/-- is_landlock_supported (lib.rs lines 52-89).  The source hardcodes
abi = ABI::V5 (line 54), attempts one handle_access on a fresh ruleset,
and builds the report from the hardcoded abi on success. -/
def is_landlock_supported (k : KernelState) : LandlockSupport :=
  let abi := ABI.V5
  if k.handleFsOk then
    let abi_version := abiVersionOf abi
    let network_supported := decide (abi_version ≥ 4)
    { supported := true
      abi_version := abi_version
      network_supported := network_supported
      message := "Landlock ABI v" ++ toString abi_version ++ " available" ++
        (if network_supported then " (with network rules)" else "") }
  else
    { supported := false
      abi_version := 0
      network_supported := false
      message := "Landlock not available: " ++ k.handleFsErr }

/-- Access set attached for each path of the read list
(AccessFs::ReadFile | AccessFs::ReadDir, lib.rs line 117). -/
def read_access : Finset AccessFs := {AccessFs.ReadFile, AccessFs.ReadDir}

/-- Access set attached for each path of the write list
(lib.rs lines 127-139). -/
def write_access : Finset AccessFs :=
  {AccessFs.ReadFile, AccessFs.ReadDir, AccessFs.WriteFile, AccessFs.RemoveFile,
   AccessFs.RemoveDir, AccessFs.MakeChar, AccessFs.MakeDir, AccessFs.MakeReg,
   AccessFs.MakeSock, AccessFs.MakeFifo, AccessFs.MakeBlock, AccessFs.MakeSym,
   AccessFs.Truncate}

/-- Access set attached for each path of the execute list
(AccessFs::Execute | AccessFs::ReadFile, lib.rs line 150). -/
def execute_access : Finset AccessFs := {AccessFs.Execute, AccessFs.ReadFile}

/-- add_fs_rule (lib.rs lines 181-197): if the path does not exist, return
Ok without adding a rule; if opening the path or adding the rule fails,
return Err; otherwise the PathBeneath rule is added.  The rule produced is
returned here instead of being pushed into a mutable ruleset. -/
def add_fs_rule (k : KernelState) (path : String) (access : Finset AccessFs) :
    Except String (Option FsRule) :=
  if !k.pathExists path then Except.ok none
  else if !k.pathOpenable path then
    Except.error ("could not open path: " ++ path)
  else Except.ok (some { path := path, access := access })

/-- Body of each per-path loop in apply_sandbox (lib.rs lines 116-121,
126-144, 149-153): call add_fs_rule and, on Err, only warn and continue,
so an error contributes no rule. -/
def addOneRule (k : KernelState) (access : Finset AccessFs)
    (acc : List FsRule) (path : String) : List FsRule :=
  match add_fs_rule k path access with
  | Except.ok (some r) => acc ++ [r]
  | Except.ok none => acc
  | Except.error _ => acc

/-- One role of the fs config: iterate the optional path list, adding one
rule per resolvable path (the three if-let blocks of lib.rs lines 115-154). -/
def addRoleRules (k : KernelState) (rules : List FsRule)
    (paths : Option (List String)) (access : Finset AccessFs) : List FsRule :=
  match paths with
  | none => rules
  | some ps => ps.foldl (addOneRule k access) rules

/-- The filesystem rules apply_sandbox adds to the created ruleset
(lib.rs lines 113-155): read paths, then write paths, then execute paths. -/
def sandboxRules (k : KernelState) (config : SandboxConfig) : List FsRule :=
  match config.fs with
  | none => []
  | some fs_config =>
    let rules := addRoleRules k [] fs_config.read read_access
    let rules := addRoleRules k rules fs_config.write write_access
    addRoleRules k rules fs_config.execute execute_access

/-- The ruleset apply_sandbox builds before committing: the filesystem
family is always handled (lib.rs line 99); the network family is handled
when the kernel accepts it (line 103); the fs rules come from the config;
no network rule is ever added (no add_rule with a NetPort exists in the
source, and config.net is never read). -/
def builtRuleset (k : KernelState) (config : SandboxConfig) : Ruleset :=
  { handled_fs := fromAllFs
    handled_net := if k.handleNetOk then fromAllNet else ∅
    fs_rules := sandboxRules k config
    net_rules := [] }

/-- restrict_self (the commit call, lib.rs lines 158-160): the only kernel
operation that mutates the process enforcement state.  On success it
pushes the committed ruleset and reports the enforcement status. -/
def restrict_self (rs : Ruleset) (k : KernelState) (s : ProcState) :
    Except String RulesetStatus × ProcState :=
  if k.restrictOk then (Except.ok k.rulesetStatus, rs :: s)
  else (Except.error k.restrictErr, s)

/-- apply_sandbox (lib.rs lines 94-178): build the ruleset, add rules,
commit with restrict_self, and fail on NotEnforced. -/
def apply_sandbox (k : KernelState) (config : SandboxConfig) (s : ProcState) :
    Except String Unit × ProcState :=
  if !k.handleFsOk then
    (Except.error ("failed to create ruleset: " ++ k.handleFsErr), s)
  else if k.handleNetOk && !k.handleFs2Ok then
    (Except.error ("failed to handle fs access: " ++ k.handleFs2Err), s)
  else if !k.createOk then
    (Except.error ("failed to create ruleset: " ++ k.createErr), s)
  else
    match restrict_self (builtRuleset k config) k s with
    | (Except.error e, s2) =>
      (Except.error ("failed to apply sandbox: " ++ e), s2)
    | (Except.ok st, s2) =>
      match st with
      | RulesetStatus.FullyEnforced => (Except.ok (), s2)
      | RulesetStatus.PartiallyEnforced => (Except.ok (), s2)
      | RulesetStatus.NotEnforced =>
        (Except.error "sandbox could not be enforced", s2)

/-- The result component of apply_sandbox, as a function of the kernel
oracle alone: the config never influences success or failure. -/
def applyResult (k : KernelState) : Except String Unit :=
  if !k.handleFsOk then
    Except.error ("failed to create ruleset: " ++ k.handleFsErr)
  else if k.handleNetOk && !k.handleFs2Ok then
    Except.error ("failed to handle fs access: " ++ k.handleFs2Err)
  else if !k.createOk then
    Except.error ("failed to create ruleset: " ++ k.createErr)
  else if !k.restrictOk then
    Except.error ("failed to apply sandbox: " ++ k.restrictErr)
  else
    match k.rulesetStatus with
    | RulesetStatus.NotEnforced => Except.error "sandbox could not be enforced"
    | _ => Except.ok ()

/-- The ruleset creation phase (lib.rs lines 98-110) succeeds: the initial
handle_access of the fs family, the re-handling inside the network branch,
and create() all succeed. -/
def rulesetCreationOk (k : KernelState) : Bool :=
  k.handleFsOk && (!k.handleNetOk || k.handleFs2Ok) && k.createOk

/-- The rule a single path contributes (none when the path is skipped or
its resolution fails with a warning). -/
def resolveRule (k : KernelState) (path : String) (access : Finset AccessFs) :
    Option FsRule :=
  match add_fs_rule k path access with
  | Except.ok (some r) => some r
  | Except.ok none => none
  | Except.error _ => none

/-- The list of rules one role contributes, in list form. -/
def roleList (k : KernelState) (paths : Option (List String))
    (access : Finset AccessFs) : List FsRule :=
  match paths with
  | none => []
  | some ps => ps.filterMap (fun p => resolveRule k p access)

/-- Access rights granted to one path by a rule list: the union of the
access sets of the rules bearing exactly that path. -/
def grantedFs : List FsRule → String → Finset AccessFs
  | [], _ => ∅
  | r :: rs, p =>
    if r.path = p then r.access ∪ grantedFs rs p else grantedFs rs p

/-- Builder operations (handle_access on a local ruleset value) do not
touch the process enforcement state; in the Landlock API only
restrict_self does. -/
def handle_access_st (s : ProcState) : ProcState := s

/-- is_landlock_supported as a state transformer: its body performs a
single handle_access on a fresh local ruleset and never calls
restrict_self, so the process state component is untouched. -/
def probe_st (k : KernelState) (s : ProcState) : LandlockSupport × ProcState :=
  (is_landlock_supported k, handle_access_st s)

/-- n successive probe calls, threading the process state. -/
def probeIter (k : KernelState) : Nat → ProcState → ProcState
  | 0, s => s
  | Nat.succ n, s => probeIter k n (probe_st k s).2

/-- Modelled from the spec: the fixed allow-list of operational system
paths of the coarse readonly policy (temporary storage, device nodes,
variable-state, runtime-state, home directories, root home); this list is
not present in src/. -/
def coarseAllowList : List String :=
  ["/tmp", "/dev", "/var", "/run", "/home", "/root"]

/-- Modelled from the spec: the coarse policy shape (readonly and network
booleans) and its compilation into the granular SandboxConfig are missing
from src/, which only defines the granular shape.  Following the
specification, readonly=true grants the write family on each entry of the
fixed allow-list excluding the protected working directory (which receives
no write rule and is denied by omission), while read and execute stay
allowed everywhere; network=false requests network restriction with no
allowed port. -/
def compileCoarse (readonly network : Bool) (workdir : String) : SandboxConfig :=
  { fs := some
      { read := some ["/"]
        write :=
          if readonly then
            some (coarseAllowList.filter (fun q => decide (q ≠ workdir)))
          else some ["/"]
        execute := some ["/"] }
    net := if network then none else some { connect_ports := none } }

/-- Kernel oracle on which every interaction succeeds and every path
resolves; enforcement is reported as full. -/
def kAllOk : KernelState :=
  { handleFsOk := true
    handleFsErr := ""
    handleNetOk := true
    handleFs2Ok := true
    handleFs2Err := ""
    createOk := true
    createErr := ""
    restrictOk := true
    restrictErr := ""
    rulesetStatus := RulesetStatus.FullyEnforced
    bestAbi := 5
    pathExists := fun _ => true
    pathOpenable := fun _ => true }

/-- Kernel oracle on which no path exists. -/
def kNoPath : KernelState := { kAllOk with pathExists := fun _ => false }

/-- Kernel oracle on which every path exists but none can be opened
(PathFd::new or add_rule fails). -/
def kNoOpen : KernelState := { kAllOk with pathOpenable := fun _ => false }

/-- Kernel oracle on which the initial handle_access is rejected. -/
def kFail : KernelState :=
  { kAllOk with handleFsOk := false, handleFsErr := "ENOSYS" }

/-- Kernel oracle of a machine whose best supported Landlock ABI is v1,
on which the initial best-effort handle_access still succeeds. -/
def kV1 : KernelState := { kAllOk with bestAbi := 1 }

/-- Granular config that requests TCP connect access to port 443 only. -/
def cfg443 : SandboxConfig :=
  { fs := none, net := some { connect_ports := some [443] } }

/-- The success or failure of apply_sandbox depends only on the kernel
oracle, never on the config or prior state. -/
theorem apply_sandbox_fst (k : KernelState) (config : SandboxConfig)
    (s : ProcState) : (apply_sandbox k config s).1 = applyResult k := by
  obtain ⟨hf, fe, hn, h2, e2, hc, ce, hr, re, st, ba, pe, po⟩ := k
  cases hf <;> cases hn <;> cases h2 <;> cases hc <;> cases hr <;> cases st <;>
    rfl

/-- Closed form of the rule one path contributes. -/
theorem resolveRule_eq (k : KernelState) (p : String) (a : Finset AccessFs) :
    resolveRule k p a =
      if k.pathExists p && k.pathOpenable p then some (FsRule.mk p a)
      else none := by
  cases he : k.pathExists p <;> cases ho : k.pathOpenable p <;>
    simp [resolveRule, add_fs_rule, he, ho]

/-- A path contributes some rule exactly when it exists and opens, and the
rule then carries that path with the requested access set. -/
theorem resolveRule_some_iff (k : KernelState) (p : String)
    (a : Finset AccessFs) (r : FsRule) :
    resolveRule k p a = some r ↔
      k.pathExists p = true ∧ k.pathOpenable p = true ∧ r = FsRule.mk p a := by
  rw [resolveRule_eq]
  cases he : k.pathExists p <;> cases ho : k.pathOpenable p <;>
    simp [he, ho, eq_comm]

/-- The loop body appends the resolved rule, if any. -/
theorem addOneRule_eq (k : KernelState) (a : Finset AccessFs)
    (acc : List FsRule) (p : String) :
    addOneRule k a acc p = acc ++ (resolveRule k p a).toList := by
  unfold addOneRule resolveRule
  cases h : add_fs_rule k p a with
  | error e => simp
  | ok o => cases o <;> simp

/-- An absent path list contributes nothing. -/
theorem addRoleRules_none (k : KernelState) (rules : List FsRule)
    (a : Finset AccessFs) : addRoleRules k rules none a = rules := rfl

/-- The per-role loop appends exactly the resolvable rules, in order. -/
theorem addRoleRules_some (k : KernelState) (a : Finset AccessFs)
    (ps : List String) :
    ∀ rules, addRoleRules k rules (some ps) a =
      rules ++ ps.filterMap (fun p => resolveRule k p a) := by
  induction ps with
  | nil => intro rules; simp [addRoleRules]
  | cons p ps ih =>
    intro rules
    simp only [addRoleRules, List.foldl_cons] at ih ⊢
    rw [ih, addOneRule_eq]
    cases h : resolveRule k p a <;> simp [List.filterMap_cons, h]

/-- The rules of a granular config are the three role lists concatenated. -/
theorem sandboxRules_eq (k : KernelState) (ro wo eo : Option (List String))
    (net : Option NetConfig) :
    sandboxRules k
        { fs := some { read := ro, write := wo, execute := eo },
          net := net } =
      (roleList k ro read_access ++ roleList k wo write_access) ++
        roleList k eo execute_access := by
  cases ro <;> cases wo <;> cases eo <;>
    simp [sandboxRules, roleList, addRoleRules_none, addRoleRules_some]

/-- Membership in a role list: the rule comes from a configured path that
exists and opens, and carries the role access set. -/
theorem mem_roleList (k : KernelState) (o : Option (List String))
    (a : Finset AccessFs) (r : FsRule) :
    r ∈ roleList k o a ↔
      ∃ ps, o = some ps ∧ ∃ p, p ∈ ps ∧ k.pathExists p = true ∧
        k.pathOpenable p = true ∧ r = FsRule.mk p a := by
  cases o with
  | none => simp [roleList]
  | some ps => simp [roleList, List.mem_filterMap, resolveRule_some_iff]

/-- Granted rights distribute over concatenation of rule lists. -/
theorem grantedFs_append (l1 l2 : List FsRule) (p : String) :
    grantedFs (l1 ++ l2) p = grantedFs l1 p ∪ grantedFs l2 p := by
  induction l1 with
  | nil => simp [grantedFs]
  | cons r l1 ih =>
    simp only [List.cons_append, grantedFs]
    by_cases h : r.path = p
    · simp [h, ih, Finset.union_assoc]
    · simp [h, ih]

/-- Rights one role list grants to a path: the role access set when the
path is configured and resolvable, nothing otherwise. -/
theorem grantedFs_roleList (k : KernelState) (ps : List String)
    (a : Finset AccessFs) (p : String) :
    grantedFs (roleList k (some ps) a) p =
      if p ∈ ps ∧ k.pathExists p = true ∧ k.pathOpenable p = true then a
      else ∅ := by
  induction ps with
  | nil => simp [roleList, grantedFs]
  | cons q ps ih =>
    simp only [roleList] at ih ⊢
    rw [List.filterMap_cons]
    cases hq : resolveRule k q a with
    | none =>
      by_cases hpq : p = q
      · subst hpq
        have hno : ¬(k.pathExists p = true ∧ k.pathOpenable p = true) := by
          intro hcon
          rw [resolveRule_eq, hcon.1, hcon.2] at hq
          simp at hq
        rw [ih, if_neg (fun h => hno h.2), if_neg (fun h => hno h.2)]
      · have hpq2 : ¬(p = q) := hpq
        rw [ih]
        simp [List.mem_cons, hpq2]
    | some r =>
      obtain ⟨he, ho, hr⟩ := (resolveRule_some_iff k q a r).mp hq
      subst hr
      simp only [grantedFs]
      by_cases hqp : q = p
      · subst hqp
        rw [if_pos rfl, ih]
        have hcond : q ∈ q :: ps ∧ k.pathExists q = true ∧
            k.pathOpenable q = true := ⟨List.mem_cons_self q ps, he, ho⟩
        rw [if_pos hcond]
        by_cases hmem : q ∈ ps ∧ k.pathExists q = true ∧ k.pathOpenable q = true
        · rw [if_pos hmem, Finset.union_self]
        · rw [if_neg hmem, Finset.union_empty]
      · rw [if_neg hqp, ih]
        have hpq2 : ¬(p = q) := fun h => hqp h.symm
        simp [List.mem_cons, hpq2]

/-- Membership in the role list of a present path list. -/
theorem mem_roleList_some (k : KernelState) (ps : List String)
    (a : Finset AccessFs) (r : FsRule) :
    r ∈ roleList k (some ps) a ↔
      ∃ p ∈ ps, k.pathExists p = true ∧ k.pathOpenable p = true ∧
        r = FsRule.mk p a := by
  simp [roleList, List.mem_filterMap, resolveRule_some_iff]

/-- C1: apply_sandbox fails exactly when the kernel rejects the ruleset
creation phase (handle_access or create), the kernel rejects the
restrict_self commit, or the commit succeeds with status NotEnforced; with
FullyEnforced or PartiallyEnforced it returns success, so a NotEnforced
commit can never end in silent success. -/
theorem apply_sandbox_ok_iff (k : KernelState) (config : SandboxConfig)
    (s : ProcState) :
    (apply_sandbox k config s).1 = Except.ok () ↔
      rulesetCreationOk k = true ∧ k.restrictOk = true ∧
        k.rulesetStatus ≠ RulesetStatus.NotEnforced := by
  rw [apply_sandbox_fst]
  obtain ⟨hf, fe, hn, h2, e2, hc, ce, hr, re, st, ba, pe, po⟩ := k
  cases hf <;> cases hn <;> cases h2 <;> cases hc <;> cases hr <;> cases st <;>
    simp [applyResult, rulesetCreationOk]

/-- C2: the coarse readonly policy (modelled from the spec, compiled
through the granular engine of the source) attaches a write-family rule
for every entry of the fixed allow-list of operational system paths, while
the protected working directory receives no rule at all, hence no write
rule: it is denied write access by omission. -/
theorem coarse_readonly_rules (k : KernelState) (workdir : String)
    (hnot : workdir ∉ coarseAllowList) (hroot : workdir ≠ "/")
    (hex : ∀ q ∈ coarseAllowList,
      k.pathExists q = true ∧ k.pathOpenable q = true) :
    (∀ q ∈ coarseAllowList,
      FsRule.mk q write_access ∈
        sandboxRules k (compileCoarse true false workdir)) ∧
    (∀ r ∈ sandboxRules k (compileCoarse true false workdir),
      r.path ≠ workdir) := by
  have hcc : compileCoarse true false workdir =
      { fs := some
          { read := some ["/"]
            write :=
              some (coarseAllowList.filter (fun q => decide (q ≠ workdir)))
            execute := some ["/"] }
        net := some { connect_ports := none } } := rfl
  constructor
  · intro q hq
    rw [hcc, sandboxRules_eq]
    apply List.mem_append.mpr
    left
    apply List.mem_append.mpr
    right
    have hqw : q ≠ workdir := fun hEq => hnot (hEq ▸ hq)
    exact (mem_roleList_some k _ write_access _).mpr
      ⟨q, List.mem_filter.mpr ⟨hq, decide_eq_true hqw⟩,
        (hex q hq).1, (hex q hq).2, rfl⟩
  · intro r hr
    rw [hcc, sandboxRules_eq] at hr
    rcases List.mem_append.mp hr with h12 | h3
    · rcases List.mem_append.mp h12 with h1 | h2
      · rcases (mem_roleList_some k ["/"] read_access r).mp h1 with
          ⟨q, hq, _, _, hre⟩
        subst hre
        have hq2 : q = "/" := List.mem_singleton.mp hq
        subst hq2
        exact Ne.symm hroot
      · rcases (mem_roleList_some k _ write_access r).mp h2 with
          ⟨q, hq, _, _, hre⟩
        subst hre
        exact of_decide_eq_true (List.mem_filter.mp hq).2
    · rcases (mem_roleList_some k ["/"] execute_access r).mp h3 with
        ⟨q, hq, _, _, hre⟩
      subst hre
      have hq2 : q = "/" := List.mem_singleton.mp hq
      subst hq2
      exact Ne.symm hroot

/-- C2 witness: on a host where every allow-list path resolves, the /tmp
entry receives its write-family rule while the working directory
/workspace is protected. -/
theorem coarse_readonly_rules_witness :
    FsRule.mk "/tmp" write_access ∈
      sandboxRules kAllOk (compileCoarse true false "/workspace") :=
  (coarse_readonly_rules kAllOk "/workspace" (by decide) (by decide)
    (fun q _ => ⟨rfl, rfl⟩)).1 "/tmp" (by decide)

/-- C3: the configured connect_ports list never parameterizes any network
rule: the built ruleset contains no NetPort rule at all, even for a config
that requests port 443, and the whole built ruleset is identical to the
one built for a config with no network section. -/
theorem net_ports_never_added :
    (builtRuleset kAllOk cfg443).net_rules = [] ∧
    builtRuleset kAllOk cfg443 =
      builtRuleset kAllOk { fs := none, net := none } :=
  ⟨rfl, rfl⟩

/-- C4: the prober reports a fixed feature level: on a kernel whose best
supported ABI is v1 (while the best-effort handle_access still succeeds)
it still reports supported with abi_version 5, not the negotiated level. -/
theorem probe_assumes_highest_abi :
    (is_landlock_supported kV1).supported = true ∧
    (is_landlock_supported kV1).abi_version = 5 ∧
    kV1.bestAbi = 1 ∧
    (is_landlock_supported kV1).abi_version ≠ kV1.bestAbi :=
  ⟨rfl, rfl, rfl, by decide⟩

/-- C5: the probe performs no commit: any number of probe calls leaves the
process enforcement state unchanged, and apply_sandbox behaves identically
after them. -/
theorem probe_no_enforcement_effect (k : KernelState) (s : ProcState)
    (n : Nat) (config : SandboxConfig) :
    probeIter k n s = s ∧
      apply_sandbox k config (probeIter k n s) = apply_sandbox k config s := by
  have h : probeIter k n s = s := by
    induction n with
    | zero => rfl
    | succ n ih => exact ih
  exact ⟨h, by rw [h]⟩

/-- C6: the role-to-access-set compilation grants exactly the specified
rights: read maps to the two read rights, write to the thirteen listed
write-family rights, execute to execute plus read-file — nothing more and
nothing less in each set. -/
theorem role_access_sets_exact :
    read_access = {AccessFs.ReadFile, AccessFs.ReadDir} ∧
    write_access = {AccessFs.ReadFile, AccessFs.ReadDir, AccessFs.WriteFile,
      AccessFs.RemoveFile, AccessFs.RemoveDir, AccessFs.MakeChar,
      AccessFs.MakeDir, AccessFs.MakeReg, AccessFs.MakeSock, AccessFs.MakeFifo,
      AccessFs.MakeBlock, AccessFs.MakeSym, AccessFs.Truncate} ∧
    execute_access = {AccessFs.Execute, AccessFs.ReadFile} :=
  ⟨rfl, rfl, rfl⟩

/-- C7: a path that does not exist or cannot be opened produces no rule
and lets no error propagate: its resolution yields no rule (for a missing
path add_fs_rule is even Ok without a rule; for an unopenable one its Err
is absorbed by the loop, which leaves the accumulated rules unchanged), no
rule of the built list bears the path, and the outcome of apply_sandbox is
the same as with an empty config, so a successful application stays
successful. -/
theorem missing_path_no_rule (k : KernelState) (config : SandboxConfig)
    (s : ProcState) (p : String)
    (h : k.pathExists p = false ∨ k.pathOpenable p = false) :
    (∀ a, resolveRule k p a = none) ∧
    (∀ (acc : List FsRule) (a : Finset AccessFs), addOneRule k a acc p = acc) ∧
    (k.pathExists p = false → ∀ a, add_fs_rule k p a = Except.ok none) ∧
    (∀ r ∈ sandboxRules k config, r.path ≠ p) ∧
    (apply_sandbox k config s).1 =
      (apply_sandbox k { fs := none, net := none } s).1 := by
  have hres : ∀ a, resolveRule k p a = none := by
    intro a
    rcases h with hh | hh <;> simp [resolveRule_eq, hh]
  refine ⟨hres, ?_, ?_, ?_, ?_⟩
  · intro acc a
    rw [addOneRule_eq, hres a]
    simp
  · intro hne a
    simp [add_fs_rule, hne]
  · obtain ⟨fso, neto⟩ := config
    intro r hr
    have key : ∀ (o : Option (List String)) (a : Finset AccessFs),
        r ∈ roleList k o a → r.path ≠ p := by
      intro o a hmem hrp
      cases o with
      | none => simp [roleList] at hmem
      | some ps =>
        rcases (mem_roleList_some k ps a r).mp hmem with ⟨q, _, hex, hop, hre⟩
        subst hre
        have hq : q = p := hrp
        rcases h with hh | hh
        · rw [hq, hh] at hex
          exact Bool.false_ne_true hex
        · rw [hq, hh] at hop
          exact Bool.false_ne_true hop
    cases fso with
    | none => simp [sandboxRules] at hr
    | some fc =>
      obtain ⟨ro, wo, eo⟩ := fc
      rw [sandboxRules_eq] at hr
      rcases List.mem_append.mp hr with h12 | h3
      · rcases List.mem_append.mp h12 with h1 | h2
        · exact key ro read_access h1
        · exact key wo write_access h2
      · exact key eo execute_access h3
  · rw [apply_sandbox_fst, apply_sandbox_fst]

/-- C7 witness: the absent path /ghost yields Ok with no rule; the
existing but unopenable path /locked resolves to no rule even though its
add_fs_rule really fails with an error, which the loop absorbs. -/
theorem missing_path_no_rule_witness :
    add_fs_rule kNoPath "/ghost" read_access = Except.ok none ∧
    resolveRule kNoOpen "/locked" write_access = none ∧
    add_fs_rule kNoOpen "/locked" write_access =
      Except.error "could not open path: /locked" :=
  ⟨(missing_path_no_rule kNoPath
      { fs := some { read := some ["/ghost"], write := none, execute := none },
        net := none } [] "/ghost" (Or.inl rfl)).2.2.1 rfl read_access,
   (missing_path_no_rule kNoOpen
      { fs := some { read := none, write := some ["/locked"], execute := none },
        net := none } [] "/locked" (Or.inr rfl)).1 write_access,
   rfl⟩

/-- C8: the probe is total and never raises: whenever the kernel rejects
ruleset creation it reports supported false with abi_version 0 and a
human-readable reason built from the kernel error. -/
theorem probe_reports_unsupported (k : KernelState)
    (h : k.handleFsOk = false) :
    (is_landlock_supported k).supported = false ∧
    (is_landlock_supported k).abi_version = 0 ∧
    (is_landlock_supported k).message =
      "Landlock not available: " ++ k.handleFsErr := by
  simp [is_landlock_supported, h]

/-- C8 witness: a kernel that rejects ruleset creation with ENOSYS gets
supported false rather than an error. -/
theorem probe_reports_unsupported_witness :
    (is_landlock_supported kFail).supported = false ∧
    (is_landlock_supported kFail).message = "Landlock not available: ENOSYS" :=
  ⟨(probe_reports_unsupported kFail rfl).1,
   (probe_reports_unsupported kFail rfl).2.2⟩

/-- C9: a path configured under both the read and the write role is
granted exactly the union of the two role access sets, nothing more and
nothing missing. -/
theorem read_write_union (k : KernelState) (net : Option NetConfig)
    (rl wl : List String) (eo : Option (List String)) (p : String)
    (hr : p ∈ rl) (hw : p ∈ wl) (he : p ∉ eo.getD [])
    (hex : k.pathExists p = true) (hop : k.pathOpenable p = true) :
    grantedFs
      (sandboxRules k
        { fs := some { read := some rl, write := some wl, execute := eo },
          net := net }) p = read_access ∪ write_access := by
  rw [sandboxRules_eq, grantedFs_append, grantedFs_append,
    grantedFs_roleList, grantedFs_roleList,
    if_pos ⟨hr, hex, hop⟩, if_pos ⟨hw, hex, hop⟩]
  cases eo with
  | none => simp [roleList, grantedFs]
  | some el =>
    simp only [Option.getD_some] at he
    rw [grantedFs_roleList, if_neg (fun hcon => he hcon.1)]
    simp

/-- C9 witness: /data configured as both read and write receives the
union of the two access sets. -/
theorem read_write_union_witness :
    grantedFs
      (sandboxRules kAllOk
        { fs := some { read := some ["/data"], write := some ["/data"],
                       execute := none },
          net := none }) "/data" = read_access ∪ write_access :=
  read_write_union kAllOk none ["/data"] ["/data"] none "/data"
    (List.mem_singleton.mpr rfl) (List.mem_singleton.mpr rfl)
    (List.not_mem_nil _) rfl rfl

/-- C10: every built ruleset handles the entire filesystem right family
(which is the whole AccessFs universe), independent of the config, and an
empty config (fs absent, or all three lists empty) contributes no rule, so
every path is granted no filesystem right at all: denial by omission. -/
theorem fs_family_always_handled (k : KernelState) (config : SandboxConfig) :
    (builtRuleset k config).handled_fs = fromAllFs ∧
    fromAllFs = (Finset.univ : Finset AccessFs) ∧
    (builtRuleset k { fs := none, net := none }).fs_rules = [] ∧
    (builtRuleset k
      { fs := some { read := some [], write := some [], execute := some [] },
        net := none }).fs_rules = [] ∧
    (∀ p,
      grantedFs (builtRuleset k { fs := none, net := none }).fs_rules p = ∅) :=
  ⟨rfl, by decide, rfl, rfl, fun _ => rfl⟩

end Sandbox
